import Mathlib

/-!
Shallow embedding of the attendance seating-chart application (src/script.js)
and verification of its specification claims.

JavaScript objects used as string-keyed dictionaries (the attendance state,
`localStorage`, the `seatRefs` map) are embedded as insertion-ordered
association lists `List (String × α)`; property read/assignment become
`jsGet`/`jsSet`.  Machine strings are Lean `String`s; statuses are the literal
strings the program uses.
-/

/-- Reading a property of a JS object / `Map.get` / `localStorage.getItem`:
returns the value at the first matching key, or `none` (undefined). -/
def jsGet {α : Type} : List (String × α) → String → Option α
  | [], _ => none
  | (k', v) :: rest, k => if k' = k then some v else jsGet rest k

/-- Assigning a property of a JS object / `Map.set` / `localStorage.setItem`:
replaces the value at an existing key in place, otherwise appends the new
entry (JS insertion order). -/
def jsSet {α : Type} : List (String × α) → String → α → List (String × α)
  | [], k, v => [(k, v)]
  | (k', v') :: rest, k, v =>
    if k' = k then (k, v) :: rest else (k', v') :: jsSet rest k v

/-- `COLUMN_DATA` from src/script.js lines 25–30: the roster, four columns of
student names. -/
def COLUMN_DATA : List (List String) :=
  [["PARAICO", "DE JOSE", "DIAZ", "BONSATO"],
   ["CADIZ", "DAYAWON", "BALANE"],
   ["SALAO", "CAMACHO", "MANANSALA", "FORTEZ", "MAGNAYE", "MERABONA", "GOYLOS", "BERNARDO"],
   ["RIVERA", "CABELLO", "MULAT", "ANSAL", "ABIT", "BAUTISTA"]]

/-- `STATUS_SEQUENCE` from src/script.js line 32. -/
def STATUS_SEQUENCE : List String := ["unmarked", "present", "absent"]

/-- `STATUS_COLORS` from src/script.js lines 33–37, as an association list. -/
def STATUS_COLORS : List (String × Nat) :=
  [("unmarked", 0xd2d7e4), ("present", 0x3ab97a), ("absent", 0xf45b69)]

/-- `STORAGE_PREFIX` from src/script.js line 38. -/
def STORAGE_PREFIX : String := "attendance-map::"

/-- `TOTAL_SEATS` from src/script.js line 60:
`COLUMN_DATA.reduce((sum, column) => sum + column.length, 0)`. -/
def TOTAL_SEATS : Nat := COLUMN_DATA.foldl (fun sum column => sum + column.length) 0

/-- `storageKeyForDate` from src/script.js line 64. -/
def storageKeyForDate (dateKey : String) : String := STORAGE_PREFIX ++ dateKey

/-- JS `Array.prototype.indexOf`: index of the first occurrence, `-1` if the
element does not occur.  Used by `nextStatus` on `STATUS_SEQUENCE`. -/
def jsIndexOf : List String → String → Int
  | [], _ => -1
  | a :: rest, x =>
    if a = x then 0
    else
      let r := jsIndexOf rest x
      if r = -1 then -1 else r + 1

/-- `nextStatus` from src/script.js lines 75–78:
`(current = "unmarked") => STATUS_SEQUENCE[(STATUS_SEQUENCE.indexOf(current) + 1) % STATUS_SEQUENCE.length]`.
The argument is `Option String` because the call sites pass
`attendanceState[seatId]`, which may be undefined (`none`); the JS default
parameter turns undefined into `"unmarked"`.  An out-of-range JS index would
read as undefined; it is unreachable since `(idx + 1) % 3 < 3`. -/
def nextStatus (current : Option String) : String :=
  let cur := current.getD "unmarked"
  let idx := jsIndexOf STATUS_SEQUENCE cur
  STATUS_SEQUENCE.getD ((idx + 1) % (STATUS_SEQUENCE.length : Int)).toNat "undefined"

/-- The JS idiom `x || "unmarked"` applied to a possibly-undefined status
string: undefined and the empty string are falsy and yield `"unmarked"`. -/
def statusOrUnmarked (o : Option String) : String :=
  match o with
  | none => "unmarked"
  | some s => if s = "" then "unmarked" else s

/-- The seat identity string built at src/script.js lines 402 and 609:
`` `c${colIdx}-${student}` ``. -/
def seatIdOf (colIdx : Nat) (student : String) : String :=
  "c" ++ toString colIdx ++ "-" ++ student

/-!
## JSON model

The program persists the attendance state with `JSON.stringify` and reads it
back with `JSON.parse` (src/script.js lines 66–73).  The serialized values are
always flat string-to-string objects, so the embedding models exactly that
fragment of JSON: `stringifyState` mirrors `JSON.stringify` on a flat string
map whose strings need no escaping, and `parseObj` is a decoder that succeeds
exactly on that fragment and fails (`none`, i.e. `JSON.parse` throwing a
`SyntaxError`) otherwise.
-/

/-- A character that `JSON.stringify` emits verbatim inside a string literal
(no quote, no backslash). -/
def jsonSafeChar (c : Char) : Bool := !(c = '"') && !(c = '\\')

/-- A string that serializes verbatim. -/
def jsonSafe (s : String) : Bool := s.data.all jsonSafeChar

/-- `JSON.stringify` of one `"key":"value"` member. -/
def stringifyPair (k v : String) : List Char :=
  '"' :: (k.data ++ ('"' :: ':' :: '"' :: (v.data ++ ['"'])))

/-- `JSON.stringify` of an object body: the members joined by commas. -/
def stringifyBody : List (String × String) → List Char
  | [] => []
  | [(k, v)] => stringifyPair k v
  | (k, v) :: rest => stringifyPair k v ++ ',' :: stringifyBody rest

/-- `JSON.stringify` of a flat string-to-string object. -/
def stringifyState (l : List (String × String)) : String :=
  ⟨'\x7b' :: (stringifyBody l ++ ['\x7d'])⟩

/-- Scan the characters of a JSON string literal up to its closing quote.
Escape sequences are outside the modelled fragment and fail. -/
def scanString : List Char → Option (List Char × List Char)
  | [] => none
  | c :: rest =>
    if c = '"' then some ([], rest)
    else if c = '\\' then none
    else
      match scanString rest with
      | some (s, r) => some (c :: s, r)
      | none => none

/-- Parse a quoted JSON string literal. -/
def parseQuoted : List Char → Option (List Char × List Char)
  | '"' :: rest => scanString rest
  | _ => none

/-- Parse one `"key":"value"` member. -/
def parsePairChars (cs : List Char) : Option ((String × String) × List Char) :=
  match parseQuoted cs with
  | some (k, rest) =>
    match rest with
    | ':' :: rest2 =>
      match parseQuoted rest2 with
      | some (v, rest3) => some ((⟨k⟩, ⟨v⟩), rest3)
      | none => none
    | _ => none
  | none => none

/-- Parse a nonempty comma-separated member list followed by the closing
brace, which must end the input.  `fuel` bounds the recursion; the caller
passes the input length, which suffices since every member consumes at least
one character. -/
def parseBody (fuel : Nat) (cs : List Char) : Option (List (String × String)) :=
  match fuel with
  | 0 => none
  | fuel' + 1 =>
    match parsePairChars cs with
    | some (p, rest) =>
      if rest = ['\x7d'] then some [p]
      else
        match rest with
        | ',' :: rest2 => (parseBody fuel' rest2).map (fun l => p :: l)
        | _ => none
    | none => none

/-- `JSON.parse` restricted to the fragment `JSON.stringify` produces for the
attendance state: a flat string-to-string object.  `none` models `JSON.parse`
throwing. -/
def parseObj (cs : List Char) : Option (List (String × String)) :=
  match cs with
  | '\x7b' :: rest =>
    if rest = ['\x7d'] then some [] else parseBody rest.length rest
  | _ => none

/-!
## Persistence layer

`localStorage` is embedded as an association list threaded explicitly; the
globals `currentDateKey` and `attendanceState` become explicit parameters.
-/

/-- The `localStorage` contents. -/
abbrev Store : Type := List (String × String)

/-- The attendance state object: seatId → status string. -/
abbrev AttendanceState : Type := List (String × String)

/-- `loadStateForDate` from src/script.js lines 66–69:
`raw ? JSON.parse(raw) : {}`.  A missing item (`getItem` returns `null`) and
the empty string are falsy and yield the empty object; otherwise the raw
string is fed to `JSON.parse`, whose failure is an uncaught exception,
modelled as `Except.error ()`. -/
def loadStateForDate (store : Store) (dateKey : String) : Except Unit AttendanceState :=
  match jsGet store (storageKeyForDate dateKey) with
  | none => .ok []
  | some raw =>
    if raw = "" then .ok []
    else
      match parseObj raw.data with
      | some st => .ok st
      | none => .error ()

/-- `saveStateForDate` from src/script.js lines 71–73:
`localStorage.setItem(storageKeyForDate(currentDateKey), JSON.stringify(attendanceState))`. -/
def saveStateForDate (store : Store) (currentDateKey : String)
    (attendanceState : AttendanceState) : Store :=
  jsSet store (storageKeyForDate currentDateKey) (stringifyState attendanceState)

/-!
## Scene graph and hit-testing

A scene-graph object is modelled by the only two attributes the core reads:
its `userData.seatId` tag (set on each seat cluster `Group` at
src/script.js line 407, absent on every other object) and its parent link.
Ray intersections are modelled by the intersected object plus its distance
along the ray; `raycaster.intersectObjects` is a three.js primitive (external
to the repository) whose documented contract is to return the hits sorted by
ascending distance, modelled here by a stable insertion sort.
Distances are abstracted to `Nat`: only their order matters to the code.
-/

/-- A scene-graph object: optional seat-identity tag and optional parent. -/
inductive Obj : Type where
  | mk (seatId : Option String) (parent : Option Obj)

/-- The seat tag of an object (`object.userData?.seatId`). -/
def Obj.seatTag : Obj → Option String
  | .mk sid _ => sid

/-- The parent link of an object. -/
def Obj.parentLink : Obj → Option Obj
  | .mk _ p => p

/-- `climbToSeat` from src/script.js lines 561–567: walk up the parent chain
while the current object lacks a `userData.seatId`; return the first tagged
ancestor, or `none` when the chain ends untagged. -/
def climbToSeat : Obj → Option Obj
  | .mk (some sid) p => some (.mk (some sid) p)
  | .mk none (some parent) => climbToSeat parent
  | .mk none none => none

/-- One ray intersection record: distance along the ray and the intersected
object. -/
structure Hit : Type where
  distance : Nat
  object : Obj

/-- Ordering of hits by distance. -/
def hitLE (a b : Hit) : Prop := a.distance ≤ b.distance

instance : DecidableRel hitLE :=
  fun a b => inferInstanceAs (Decidable (a.distance ≤ b.distance))

instance : IsTotal Hit hitLE := ⟨fun a b => Nat.le_total a.distance b.distance⟩

instance : IsTrans Hit hitLE := ⟨fun _ _ _ => Nat.le_trans⟩

/-- Modelled from the three.js contract of `raycaster.intersectObjects`
(external library, not in src/): the raw intersections are returned sorted by
ascending distance (stably). -/
def intersectObjects (hits : List Hit) : List Hit :=
  List.insertionSort hitLE hits

/-- `findSeatIdFromIntersection` from src/script.js lines 556–559:
`climbToSeat(intersection.object)?.userData?.seatId ?? null`. -/
def findSeatIdFromIntersection (h : Hit) : Option String :=
  match climbToSeat h.object with
  | some o => o.seatTag
  | none => none

/-!
## Application state and mutation

The mutable globals `attendanceState` and `localStorage`, plus a log of the
recolor requests issued to the render adapter (`mesh.material.color.setHex`),
are gathered in one record threaded through the event handlers.  `seatRefs`
maps a seatId to the identifiers of its three color meshes (seat pad,
backrest, base).  `updateCounts` only rewrites DOM counter text and touches
none of this state, so it has no footprint in the record.
-/

/-- The `seatRefs` map (src/script.js line 59): seatId → color-mesh ids. -/
abbrev SeatRefs : Type := List (String × List Nat)

/-- The mutable state the core reads and writes, plus the recolor-request
log: each entry is a (mesh id, color) pair passed to `setHex`. -/
structure AppState : Type where
  attendance : AttendanceState
  store : Store
  recolors : List (Nat × Nat)

/-- `applySeatStatus` from src/script.js lines 80–88: write the status into
`attendanceState`, recolor the seat's color meshes when the seat is known,
then persist the full state via `saveStateForDate`. -/
def applySeatStatus (currentDateKey : String) (seatRefs : SeatRefs)
    (st : AppState) (seatId status : String) : AppState :=
  let attendance := jsSet st.attendance seatId status
  let recolors :=
    match jsGet seatRefs seatId with
    | some meshes => st.recolors ++ meshes.map (fun m => (m, (jsGet STATUS_COLORS status).getD 0))
    | none => st.recolors
  let store := saveStateForDate st.store currentDateKey attendance
  ⟨attendance, store, recolors⟩

/-- `handlePointerDown` from src/script.js lines 536–545: sort the raw ray
hits (the raycast against the seat roots), stop if there is none, resolve the
nearest hit to a seat identity, stop if there is none, otherwise cycle that
seat's status via `applySeatStatus`. -/
def handlePointerDown (hits : List Hit) (currentDateKey : String)
    (seatRefs : SeatRefs) (st : AppState) : AppState :=
  match intersectObjects hits with
  | [] => st
  | h :: _ =>
    match findSeatIdFromIntersection h with
    | none => st
    | some seatId => applySeatStatus currentDateKey seatRefs st seatId
      (nextStatus (jsGet st.attendance seatId))

/-- `refreshDeskColors` from src/script.js lines 591–597: recolor every
registered seat according to the current state (`attendanceState[seatId] ||
"unmarked"`). -/
def refreshDeskColors (seatRefs : SeatRefs) (st : AppState) : AppState :=
  { st with recolors := st.recolors ++
      (seatRefs.map (fun p => p.2.map (fun m =>
        (m, (jsGet STATUS_COLORS (statusOrUnmarked (jsGet st.attendance p.1))).getD 0)))).flatten }

/-- `resetDay` from src/script.js lines 599–603: replace the attendance state
with the empty object, persist it, refresh all desk colors. -/
def resetDay (currentDateKey : String) (seatRefs : SeatRefs) (st : AppState) : AppState :=
  let st1 : AppState := { st with attendance := [] }
  let st2 : AppState := { st1 with store := saveStateForDate st1.store currentDateKey st1.attendance }
  refreshDeskColors seatRefs st2

/-- The data rows pushed by `exportCSV` (src/script.js lines 605–621): a
header row, then for each column in roster order and each student in column
order one row `[currentDateKey, student, attendanceState[seatId] || "unmarked"]`. -/
def exportCSVRows (currentDateKey : String) (attendanceState : AttendanceState) :
    List (List String) :=
  COLUMN_DATA.enum.foldl
    (fun rows p => p.2.foldl
      (fun rows student =>
        rows ++ [[currentDateKey, student,
          statusOrUnmarked (jsGet attendanceState (seatIdOf p.1 student))]])
      rows)
    [["Date", "Student", "Status"]]

/-- The CSV text built by `exportCSV`: rows joined by commas and newlines. -/
def exportCSVText (currentDateKey : String) (attendanceState : AttendanceState) : String :=
  String.intercalate "\n"
    ((exportCSVRows currentDateKey attendanceState).map (String.intercalate ","))

/-- The seat identities created by `buildDesksAndChairs` (src/script.js lines
379–430), in creation order: for each column index and each student of that
column, `` `c${colIdx}-${student}` ``. -/
def buildSeatIds : List String :=
  (COLUMN_DATA.enum.map (fun p => p.2.map (fun student => seatIdOf p.1 student))).flatten

/-- The roster domain of the seat-identity encoding: all
(columnIndex, studentName) pairs in roster order. -/
def rosterPairs : List (Nat × String) :=
  (COLUMN_DATA.enum.map (fun p => p.2.map (fun student => (p.1, student)))).flatten

/-- The seat identity a pointer-down event resolves to: the nearest sorted
hit climbed to its tagged ancestor, `none` when there is no hit or the chain
is untagged.  This names the guard logic of `handlePointerDown`
(src/script.js lines 540–542) so theorems can case on it. -/
def resolveSeat (hits : List Hit) : Option String :=
  match intersectObjects hits with
  | [] => none
  | h :: _ => findSeatIdFromIntersection h

/-- The data rows of the export, stated as one row per roster seat in roster
order (spec reading of the export contract, §6 of the spec). -/
def rosterRows (currentDateKey : String) (attendanceState : AttendanceState) :
    List (List String) :=
  (COLUMN_DATA.enum.map (fun p => p.2.map (fun student =>
    [currentDateKey, student,
      statusOrUnmarked (jsGet attendanceState (seatIdOf p.1 student))]))).flatten

-- sanity examples (concrete evaluations of the embedding)
example : stringifyState [("c0-PARAICO", "present")] = "\x7b\"c0-PARAICO\":\"present\"\x7d" := by decide

/-!
## Helper lemmas
-/

/-- Reading back the key just assigned returns the assigned value. -/
theorem jsGet_jsSet_self {α : Type} (l : List (String × α)) (k : String) (v : α) :
    jsGet (jsSet l k v) k = some v := by
  induction l with
  | nil => simp [jsGet, jsSet]
  | cons p rest ih =>
    obtain ⟨k', v'⟩ := p
    by_cases hk : k' = k
    · subst hk
      simp [jsGet, jsSet]
    · simp [jsGet, jsSet, hk, ih]

/-- Assigning one key leaves every other key unchanged. -/
theorem jsGet_jsSet_ne {α : Type} (l : List (String × α)) (k k' : String) (v : α)
    (h : k' ≠ k) : jsGet (jsSet l k v) k' = jsGet l k' := by
  induction l with
  | nil => simp [jsGet, jsSet, Ne.symm h]
  | cons p rest ih =>
    obtain ⟨k₀, v₀⟩ := p
    by_cases hk : k₀ = k
    · subst hk
      simp [jsGet, jsSet, Ne.symm h]
    · simp only [jsSet, if_neg hk, jsGet]
      by_cases hk' : k₀ = k'
      · simp [hk']
      · simp [hk', ih]

/-- JS `indexOf` returns `-1` exactly on a missing element. -/
theorem jsIndexOf_of_not_mem (l : List String) (x : String) (h : x ∉ l) :
    jsIndexOf l x = -1 := by
  induction l with
  | nil => rfl
  | cons a rest ih =>
    simp only [List.mem_cons, not_or] at h
    simp only [jsIndexOf, if_neg (Ne.symm h.1), ih h.2]
    simp

/-- `nextStatus` on a string outside the enumeration yields `"unmarked"`
(JS `indexOf` gives `-1`, so the cycle restarts at index `0`). -/
theorem nextStatus_of_not_mem (s : String) (h : s ∉ STATUS_SEQUENCE) :
    nextStatus (some s) = "unmarked" := by
  simp only [nextStatus, Option.getD, jsIndexOf_of_not_mem STATUS_SEQUENCE s h]
  rfl

/-- Scanning a safe string body followed by its closing quote returns the
body and the remainder. -/
theorem scanString_append (s : List Char) (rest : List Char)
    (h : s.all jsonSafeChar) : scanString (s ++ '"' :: rest) = some (s, rest) := by
  induction s with
  | nil => rfl
  | cons c cs ih =>
    simp only [List.all_cons, jsonSafeChar, Bool.and_eq_true, Bool.not_eq_true',
      decide_eq_false_iff_not] at h
    simp only [List.cons_append, scanString, if_neg h.1.1, if_neg h.1.2,
      List.append_eq, ih h.2]

/-- Parsing the serialization of one member returns that member and the
remainder. -/
theorem parsePairChars_stringifyPair (k v : String) (rest : List Char)
    (hk : jsonSafe k) (hv : jsonSafe v) :
    parsePairChars (stringifyPair k v ++ rest) = some ((k, v), rest) := by
  have h1 := scanString_append k.data (':' :: '"' :: (v.data ++ '"' :: rest)) hk
  have h2 := scanString_append v.data rest hv
  simp only [stringifyPair, List.cons_append, List.append_assoc, List.singleton_append,
    List.nil_append]
  simp only [parsePairChars, parseQuoted, h1, h2]

/-- Every serialized member list is at least as long as the member list. -/
theorem stringifyBody_length (l : List (String × String)) :
    l.length ≤ (stringifyBody l).length := by
  induction l with
  | nil => simp [stringifyBody]
  | cons p l' ih =>
    obtain ⟨k, v⟩ := p
    cases l' with
    | nil => simp [stringifyBody, stringifyPair]
    | cons q l'' =>
      simp only [stringifyBody, stringifyPair, List.length_cons, List.length_append] at *
      omega

/-- The serialization of a nonempty member list starts with a quote. -/
theorem stringifyBody_cons_head (p : String × String) (l' : List (String × String)) :
    ∃ t, stringifyBody (p :: l') = '"' :: t := by
  obtain ⟨k, v⟩ := p
  cases l' with
  | nil => exact ⟨_, rfl⟩
  | cons q l'' => exact ⟨_, rfl⟩

/-- Parsing the serialization of a nonempty member list followed by the
closing brace recovers the member list, given enough fuel. -/
theorem parseBody_stringifyBody (l : List (String × String)) :
    ∀ fuel : Nat, l ≠ [] → (∀ p ∈ l, jsonSafe p.1 ∧ jsonSafe p.2) →
      l.length ≤ fuel → parseBody fuel (stringifyBody l ++ ['\x7d']) = some l := by
  induction l with
  | nil => intro fuel h; exact absurd rfl h
  | cons p l' ih =>
    intro fuel _ hsafe hfuel
    obtain ⟨k, v⟩ := p
    have hk : jsonSafe k := (hsafe (k, v) (List.mem_cons_self _ _)).1
    have hv : jsonSafe v := (hsafe (k, v) (List.mem_cons_self _ _)).2
    cases fuel with
    | zero => simp at hfuel
    | succ fuel' =>
      cases l' with
      | nil =>
        simp only [stringifyBody, parseBody,
          parsePairChars_stringifyPair k v ['\x7d'] hk hv]
        rfl
      | cons q l'' =>
        simp only [stringifyBody, List.cons_append, List.append_assoc]
        have hne : (',' :: (stringifyBody (q :: l'') ++ ['\x7d'])) ≠ ['\x7d'] := by
          intro h
          exact absurd (List.head_eq_of_cons_eq h) (by decide)
        simp only [parseBody,
          parsePairChars_stringifyPair k v (',' :: (stringifyBody (q :: l'') ++ ['\x7d'])) hk hv,
          if_neg hne]
        rw [ih fuel' (by simp) (fun r hr => hsafe r (List.mem_cons_of_mem _ hr)) (by
          simp only [List.length_cons] at hfuel ⊢
          omega)]
        rfl

/-- Round trip of the JSON model: parsing the serialization of a flat
string-to-string object whose strings are JSON-safe recovers the object. -/
theorem parseObj_stringifyState (l : List (String × String))
    (hsafe : ∀ p ∈ l, jsonSafe p.1 ∧ jsonSafe p.2) :
    parseObj (stringifyState l).data = some l := by
  cases l with
  | nil => rfl
  | cons p l' =>
    obtain ⟨t, ht⟩ := stringifyBody_cons_head p l'
    have hne : stringifyBody (p :: l') ++ ['\x7d'] ≠ ['\x7d'] := by
      rw [ht]
      intro h
      exact absurd (List.head_eq_of_cons_eq h) (by decide)
    simp only [stringifyState, parseObj, if_neg hne]
    exact parseBody_stringifyBody (p :: l') _ (by simp) hsafe
      (le_trans (stringifyBody_length (p :: l')) (by simp))

/-- The containment hierarchy above an object: the object followed by its
ancestors, root last. -/
def ancestorChain : Obj → List Obj
  | .mk u none => [.mk u none]
  | .mk u (some p) => .mk u (some p) :: ancestorChain p

/-- The seat identity of the nearest ancestor (the object itself included)
carrying a seat-identity tag: the spec's description of hit resolution. -/
def nearestTaggedAncestorId (o : Obj) : Option String :=
  match (ancestorChain o).find? (fun x => x.seatTag.isSome) with
  | some x => x.seatTag
  | none => none

/-- `climbToSeat` returns exactly the first tagged object of the ancestor
chain. -/
theorem climbToSeat_eq_find : ∀ o : Obj,
    climbToSeat o = (ancestorChain o).find? (fun x => x.seatTag.isSome)
  | .mk (some sid) none => by
    simp [climbToSeat, ancestorChain, List.find?, Obj.seatTag]
  | .mk (some sid) (some q) => by
    simp [climbToSeat, ancestorChain, List.find?, Obj.seatTag]
  | .mk none (some parent) => by
    rw [climbToSeat, ancestorChain]
    simp only [List.find?, Obj.seatTag, Option.isSome_none]
    exact climbToSeat_eq_find parent
  | .mk none none => by
    simp [climbToSeat, ancestorChain, List.find?, Obj.seatTag]

/-- The sorted intersection list starts with the strictly nearest hit. -/
theorem intersectObjects_head_min (hits : List Hit) (h : Hit) (hm : h ∈ hits)
    (hmin : ∀ h' ∈ hits, h' ≠ h → h.distance < h'.distance) :
    ∃ t, intersectObjects hits = h :: t := by
  have hperm : List.Perm (intersectObjects hits) hits :=
    List.perm_insertionSort hitLE hits
  have hsorted : List.Sorted hitLE (intersectObjects hits) :=
    List.sorted_insertionSort hitLE hits
  rcases he : intersectObjects hits with _ | ⟨h0, t⟩
  · rw [he] at hperm
    exact absurd (hperm.mem_iff.2 hm) (List.not_mem_nil h)
  · rw [he] at hperm hsorted
    by_cases h0h : h0 = h
    · subst h0h
      exact ⟨t, rfl⟩
    · exfalso
      have hmem0 : h0 ∈ hits := hperm.subset (List.mem_cons_self h0 t)
      have hlt : h.distance < h0.distance := hmin h0 hmem0 h0h
      have hmemS : h ∈ h0 :: t := hperm.mem_iff.2 hm
      rcases List.mem_cons.1 hmemS with hh | hh
      · exact h0h hh.symm
      · have hle : hitLE h0 h := (List.sorted_cons.1 hsorted).1 h hh
        exact absurd hle (by
          simp only [hitLE, not_le]
          exact hlt)

/-!
## Claims
-/

/-- Claim C3: the status successor is a three-cycle on
unmarked → present → absent → unmarked, and applying it three times is the
identity on each of the three statuses. -/
theorem claim_C3_status_three_cycle :
    nextStatus (some "unmarked") = "present" ∧
    nextStatus (some "present") = "absent" ∧
    nextStatus (some "absent") = "unmarked" ∧
    nextStatus (some (nextStatus (some (nextStatus (some "unmarked"))))) = "unmarked" ∧
    nextStatus (some (nextStatus (some (nextStatus (some "present"))))) = "present" ∧
    nextStatus (some (nextStatus (some (nextStatus (some "absent"))))) = "absent" := by
  decide

/-- Claim C10: `nextStatus` is total and never escapes the enumeration: any
string outside the three enumeration values steps to `"unmarked"`, a missing
(undefined) input steps to `"present"` (absence reads as unmarked), and every
output is one of the three statuses. -/
theorem claim_C10_nextStatus_total :
    (∀ s : String, s ∉ STATUS_SEQUENCE → nextStatus (some s) = "unmarked") ∧
    nextStatus none = "present" ∧
    (∀ o : Option String, nextStatus o ∈ STATUS_SEQUENCE) := by
  refine ⟨fun s h => nextStatus_of_not_mem s h, by decide, fun o => ?_⟩
  match o with
  | none => decide
  | some s =>
    by_cases hs : s ∈ STATUS_SEQUENCE
    · have : s = "unmarked" ∨ s = "present" ∨ s = "absent" := by
        simpa [STATUS_SEQUENCE] using hs
      rcases this with h | h | h <;> subst h <;> decide
    · rw [nextStatus_of_not_mem s hs]
      decide

/-- Witness for claim C10 at the concrete corrupt status `"late"`. -/
theorem claim_C10_nextStatus_total_witness :
    nextStatus (some "late") = "unmarked" :=
  claim_C10_nextStatus_total.1 "late" (by decide)

/-- Claim C1 counterexample: with a corrupt (unparsable) payload stored for a
date, `loadStateForDate` propagates a decode error (`JSON.parse` throws) and
does not return the empty state. -/
theorem claim_C1_counterexample :
    loadStateForDate [(storageKeyForDate "2024-01-01", "\x7boops")] "2024-01-01" = .error () ∧
    loadStateForDate [(storageKeyForDate "2024-01-01", "\x7boops")] "2024-01-01" ≠
      .ok ([] : AttendanceState) := by
  refine ⟨rfl, fun h => ?_⟩
  rw [show loadStateForDate [(storageKeyForDate "2024-01-01", "\x7boops")] "2024-01-01"
      = Except.error () from rfl] at h
  exact Except.noConfusion h

/-- Claim C1 (amended): reading returns the empty mapping when the stored
value is absent (or the empty string, which is falsy); but a present payload
on which the JSON decoder fails makes the read propagate an error rather than
yield the empty state. -/
theorem claim_C1_load_empty_or_error (store : Store) (dateKey : String) :
    (jsGet store (storageKeyForDate dateKey) = none →
      loadStateForDate store dateKey = .ok []) ∧
    (jsGet store (storageKeyForDate dateKey) = some "" →
      loadStateForDate store dateKey = .ok []) ∧
    (∀ raw : String, jsGet store (storageKeyForDate dateKey) = some raw → raw ≠ "" →
      parseObj raw.data = none → loadStateForDate store dateKey = .error ()) := by
  refine ⟨fun h => ?_, fun h => ?_, fun raw h hne hparse => ?_⟩
  · simp only [loadStateForDate, h]
  · simp [loadStateForDate, h]
  · simp only [loadStateForDate, h, if_neg hne, hparse]

/-- Witness for the amended claim C1 at concrete stores. -/
theorem claim_C1_load_empty_or_error_witness :
    loadStateForDate [] "2024-01-01" = .ok [] ∧
    loadStateForDate [(storageKeyForDate "2024-01-01", "not json")] "2024-01-01" = .error () :=
  ⟨(claim_C1_load_empty_or_error [] "2024-01-01").1 rfl,
   (claim_C1_load_empty_or_error [(storageKeyForDate "2024-01-01", "not json")]
      "2024-01-01").2.2 "not json" (by decide) (by decide) (by decide)⟩

/-- A serialized state is never the empty string (it starts with a brace). -/
theorem stringifyState_ne_empty (l : AttendanceState) : stringifyState l ≠ "" := by
  intro h
  have hd := congrArg String.data h
  simp [stringifyState] at hd

/-- Claim C4: the persistence round trip returns the state just written for
the same date, the namespaced storage key is injective in the date key, and a
write for one date leaves every other date's stored entry untouched. -/
theorem claim_C4_roundtrip_and_injective :
    (∀ (store : Store) (d : String) (state : AttendanceState),
      (∀ p ∈ state, jsonSafe p.1 ∧ jsonSafe p.2) →
      loadStateForDate (saveStateForDate store d state) d = .ok state) ∧
    (∀ d1 d2 : String, storageKeyForDate d1 = storageKeyForDate d2 → d1 = d2) ∧
    (∀ (store : Store) (d1 d2 : String) (state : AttendanceState), d1 ≠ d2 →
      jsGet (saveStateForDate store d1 state) (storageKeyForDate d2) =
        jsGet store (storageKeyForDate d2)) := by
  have hinj : ∀ d1 d2 : String, storageKeyForDate d1 = storageKeyForDate d2 → d1 = d2 := by
    intro d1 d2 h
    unfold storageKeyForDate at h
    have hd := congrArg String.data h
    rw [String.data_append, String.data_append] at hd
    exact String.ext (List.append_cancel_left hd)
  refine ⟨fun store d state hsafe => ?_, hinj, fun store d1 d2 state hne => ?_⟩
  · simp only [loadStateForDate, saveStateForDate, jsGet_jsSet_self,
      if_neg (stringifyState_ne_empty state), parseObj_stringifyState state hsafe]
  · exact jsGet_jsSet_ne _ _ _ _ (fun e => hne (hinj d2 d1 e).symm)

/-- Witness for claim C4 at a concrete store, date and state. -/
theorem claim_C4_roundtrip_and_injective_witness :
    loadStateForDate (saveStateForDate [] "2024-01-01" [("c0-PARAICO", "present")])
      "2024-01-01" = .ok [("c0-PARAICO", "present")] ∧
    ("2024-01-01" : String) = "2024-01-01" ∧
    jsGet (saveStateForDate [] "2024-01-01" [("c0-PARAICO", "present")])
      (storageKeyForDate "2024-01-02") = jsGet ([] : Store) (storageKeyForDate "2024-01-02") :=
  ⟨claim_C4_roundtrip_and_injective.1 [] "2024-01-01" [("c0-PARAICO", "present")] (by decide),
   claim_C4_roundtrip_and_injective.2.1 "2024-01-01" "2024-01-01" rfl,
   claim_C4_roundtrip_and_injective.2.2 [] "2024-01-01" "2024-01-02"
     [("c0-PARAICO", "present")] (by decide)⟩

/-- Claim C5: after `resetDay` on the current date every seat reads
`"unmarked"` (the mapping is empty), and reading that date's persisted state
back returns the empty mapping. -/
theorem claim_C5_reset_clears_and_persists (currentDateKey : String)
    (seatRefs : SeatRefs) (st : AppState) :
    (∀ seatId : String,
      statusOrUnmarked (jsGet (resetDay currentDateKey seatRefs st).attendance seatId)
        = "unmarked") ∧
    loadStateForDate (resetDay currentDateKey seatRefs st).store currentDateKey = .ok [] := by
  constructor
  · intro seatId
    rfl
  · simp only [resetDay, refreshDeskColors, loadStateForDate, saveStateForDate,
      jsGet_jsSet_self, if_neg (stringifyState_ne_empty [])]
    rfl

/-- Claim C2: a pointer-down that resolves to a seat cycles that seat's
recorded status to `next` of its current value (an absent entry reading as
unmarked, since `nextStatus` of undefined equals `nextStatus` of
`"unmarked"`); a pointer-down that resolves to no seat leaves the state
unchanged. -/
theorem claim_C2_click_cycles (hits : List Hit) (currentDateKey : String)
    (seatRefs : SeatRefs) (st : AppState) :
    (resolveSeat hits = none → handlePointerDown hits currentDateKey seatRefs st = st) ∧
    (∀ seatId : String, resolveSeat hits = some seatId →
      handlePointerDown hits currentDateKey seatRefs st
        = applySeatStatus currentDateKey seatRefs st seatId
            (nextStatus (jsGet st.attendance seatId)) ∧
      jsGet (handlePointerDown hits currentDateKey seatRefs st).attendance seatId
        = some (nextStatus (jsGet st.attendance seatId))) ∧
    nextStatus none = nextStatus (some "unmarked") := by
  refine ⟨?_, ?_, by decide⟩ <;>
    rcases hi : intersectObjects hits with _ | ⟨h0, tl⟩
  · intro _
    simp only [handlePointerDown, hi]
  · rcases hs : findSeatIdFromIntersection h0 with _ | s
    · intro _
      simp only [handlePointerDown, hi, hs]
    · intro hnone
      simp only [resolveSeat, hi, hs] at hnone
      exact Option.noConfusion hnone
  · intro seatId hsid
    simp only [resolveSeat, hi] at hsid
    exact Option.noConfusion hsid
  · intro seatId hsid
    simp only [resolveSeat, hi] at hsid
    rcases hs : findSeatIdFromIntersection h0 with _ | s
    · simp only [hs] at hsid
      exact Option.noConfusion hsid
    · simp only [hs] at hsid
      have hse : s = seatId := Option.some.inj hsid
      subst hse
      constructor
      · simp only [handlePointerDown, hi, hs]
      · simp only [handlePointerDown, hi, hs, applySeatStatus, jsGet_jsSet_self]

/-- Witness for claim C2: a concrete two-level scene (a mesh inside a tagged
seat cluster) on an empty attendance state: the click records `"present"`. -/
theorem claim_C2_click_cycles_witness :
    handlePointerDown [⟨5, Obj.mk none (some (Obj.mk (some "c0-PARAICO") none))⟩]
        "2024-01-01" [("c0-PARAICO", [1, 2, 3])] ⟨[], [], []⟩
      = applySeatStatus "2024-01-01" [("c0-PARAICO", [1, 2, 3])] ⟨[], [], []⟩
          "c0-PARAICO" (nextStatus (jsGet ([] : AttendanceState) "c0-PARAICO")) ∧
    jsGet (handlePointerDown [⟨5, Obj.mk none (some (Obj.mk (some "c0-PARAICO") none))⟩]
        "2024-01-01" [("c0-PARAICO", [1, 2, 3])] ⟨[], [], []⟩).attendance "c0-PARAICO"
      = some (nextStatus (jsGet ([] : AttendanceState) "c0-PARAICO")) :=
  (claim_C2_click_cycles [⟨5, Obj.mk none (some (Obj.mk (some "c0-PARAICO") none))⟩]
    "2024-01-01" [("c0-PARAICO", [1, 2, 3])] ⟨[], [], []⟩).2.1 "c0-PARAICO" rfl

/-- Claim C6: the export consists of the header row followed by exactly one
row per seat in roster order, each row carrying the current date key, the
student name and the stored status (defaulting to `"unmarked"`); the row
count is the seat count plus the header. -/
theorem claim_C6_export_rows (currentDateKey : String) (attendanceState : AttendanceState) :
    exportCSVRows currentDateKey attendanceState
      = ["Date", "Student", "Status"] :: rosterRows currentDateKey attendanceState ∧
    (exportCSVRows currentDateKey attendanceState).length = TOTAL_SEATS + 1 := by
  constructor
  · simp [exportCSVRows, rosterRows, COLUMN_DATA, List.enum]
  · simp [exportCSVRows, COLUMN_DATA, TOTAL_SEATS, List.enum]

/-- Claim C9: `applySeatStatus` is write-through: when it returns, the seat's
entry holds the new status, the full updated state is persisted under the
current date key, and a recolor request was issued for each of the seat's
color meshes (when the seat is registered). -/
theorem claim_C9_write_through (currentDateKey : String) (seatRefs : SeatRefs)
    (st : AppState) (seatId status : String) :
    jsGet (applySeatStatus currentDateKey seatRefs st seatId status).attendance seatId
      = some status ∧
    jsGet (applySeatStatus currentDateKey seatRefs st seatId status).store
        (storageKeyForDate currentDateKey)
      = some (stringifyState
          (applySeatStatus currentDateKey seatRefs st seatId status).attendance) ∧
    (∀ meshes : List Nat, jsGet seatRefs seatId = some meshes →
      (applySeatStatus currentDateKey seatRefs st seatId status).recolors
        = st.recolors ++ meshes.map (fun m => (m, (jsGet STATUS_COLORS status).getD 0))) := by
  refine ⟨?_, ?_, fun meshes h => ?_⟩
  · simp only [applySeatStatus, jsGet_jsSet_self]
  · simp only [applySeatStatus, saveStateForDate, jsGet_jsSet_self]
  · simp only [applySeatStatus, h]

/-- Witness for claim C9 on a concrete state and registered seat. -/
theorem claim_C9_write_through_witness :
    jsGet (applySeatStatus "2024-01-01" [("c0-PARAICO", [1, 2, 3])] ⟨[], [], []⟩
        "c0-PARAICO" "present").attendance "c0-PARAICO" = some "present" ∧
    jsGet (applySeatStatus "2024-01-01" [("c0-PARAICO", [1, 2, 3])] ⟨[], [], []⟩
        "c0-PARAICO" "present").store (storageKeyForDate "2024-01-01")
      = some (stringifyState (applySeatStatus "2024-01-01" [("c0-PARAICO", [1, 2, 3])]
          ⟨[], [], []⟩ "c0-PARAICO" "present").attendance) ∧
    (applySeatStatus "2024-01-01" [("c0-PARAICO", [1, 2, 3])] ⟨[], [], []⟩
        "c0-PARAICO" "present").recolors
      = ([] : List (Nat × Nat)) ++ [1, 2, 3].map (fun m => (m, (jsGet STATUS_COLORS "present").getD 0)) :=
  ⟨(claim_C9_write_through "2024-01-01" [("c0-PARAICO", [1, 2, 3])] ⟨[], [], []⟩
      "c0-PARAICO" "present").1,
   (claim_C9_write_through "2024-01-01" [("c0-PARAICO", [1, 2, 3])] ⟨[], [], []⟩
      "c0-PARAICO" "present").2.1,
   (claim_C9_write_through "2024-01-01" [("c0-PARAICO", [1, 2, 3])] ⟨[], [], []⟩
      "c0-PARAICO" "present").2.2 [1, 2, 3] rfl⟩

/-- Claim C8: building the registry from the roster yields exactly
`TOTAL_SEATS = 21` seat identities, all distinct; the identity list is the
image of the (columnIndex, studentName) roster pairs (themselves distinct)
under the deterministic encoding `seatIdOf`, so the encoding is collision-free
on the roster. -/
theorem claim_C8_seat_ids_distinct :
    buildSeatIds.length = TOTAL_SEATS ∧
    TOTAL_SEATS = 21 ∧
    buildSeatIds.Nodup ∧
    rosterPairs.Nodup ∧
    buildSeatIds = rosterPairs.map (fun p => seatIdOf p.1 p.2) := by
  decide


example : parseObj (stringifyState [("a", "b"), ("c", "d")]).data = some [("a", "b"), ("c", "d")] := by decide
example : parseObj "\x7boops".data = none := by decide
example : loadStateForDate [] "2024-01-01" = .ok [] := rfl
example : nextStatus (some "unmarked") = "present" := by decide
example : nextStatus none = "present" := by decide
example : nextStatus (some "absent") = "unmarked" := by decide
example : nextStatus (some "garbage") = "unmarked" := by decide
example : TOTAL_SEATS = 21 := by decide
example : seatIdOf 0 "PARAICO" = "c0-PARAICO" := by decide

/-- Claim C7: hit-test resolution: no ray intersection resolves to no seat;
a hit is resolved by climbing the containment hierarchy to the nearest tagged
ancestor (so any sub-surface of a seat resolves to that seat, and untagged
chains resolve to none); and among several intersections the strictly nearest
one wins. -/
theorem claim_C7_hit_resolution :
    resolveSeat [] = none ∧
    (∀ h : Hit, findSeatIdFromIntersection h = nearestTaggedAncestorId h.object) ∧
    (∀ (hits : List Hit) (h : Hit) (sid : String), h ∈ hits →
      (∀ h' ∈ hits, h' ≠ h → h.distance < h'.distance) →
      nearestTaggedAncestorId h.object = some sid →
      resolveSeat hits = some sid) := by
  have hclimb : ∀ h : Hit, findSeatIdFromIntersection h = nearestTaggedAncestorId h.object := by
    intro h
    rw [findSeatIdFromIntersection, nearestTaggedAncestorId, climbToSeat_eq_find]
  refine ⟨rfl, hclimb, fun hits h sid hm hmin htag => ?_⟩
  obtain ⟨t, ht⟩ := intersectObjects_head_min hits h hm hmin
  simp only [resolveSeat, ht]
  rw [hclimb h, htag]

/-- Witness for claim C7: two seats intersected; the nearer one (distance 3,
hit on an untagged child mesh of the tagged cluster) wins. -/
theorem claim_C7_hit_resolution_witness :
    resolveSeat [⟨7, Obj.mk none (some (Obj.mk (some "c1-CADIZ") none))⟩,
                 ⟨3, Obj.mk none (some (Obj.mk (some "c0-DIAZ") none))⟩]
      = some "c0-DIAZ" := by
  refine claim_C7_hit_resolution.2.2
    [⟨7, Obj.mk none (some (Obj.mk (some "c1-CADIZ") none))⟩,
     ⟨3, Obj.mk none (some (Obj.mk (some "c0-DIAZ") none))⟩]
    ⟨3, Obj.mk none (some (Obj.mk (some "c0-DIAZ") none))⟩
    "c0-DIAZ" (List.mem_cons_of_mem _ (List.mem_cons_self _ _)) ?_ rfl
  intro h' hmem hne
  rcases List.mem_cons.1 hmem with hh | hh
  · subst hh
    decide
  · rcases List.mem_cons.1 hh with hh2 | hh2
    · exact absurd hh2 hne
    · exact absurd hh2 (List.not_mem_nil h')
